import Mathlib

/-!
Verification development for the Nazara Engine rendering core:
the renderer state cache (matrix slots, texture units, dirty flags,
VAO memoization) and the deferred render queue (batching, comparators).

All definitions are shallow embeddings of the C++ source in
src/include/Nazara/Graphics/Model.hpp.  GPU resources are identified by
their addresses, modelled as natural numbers (0 plays the role of a null
pointer where a raw pointer is compared).  4x4 matrices are modelled as a
free term algebra: the claims under study only concern caching and
invalidation, never concrete matrix arithmetic, and the free algebra
distinguishes a stale cached product from a freshly recomputed one.
-/

set_option autoImplicit false

namespace NazaraCore

/-- Free model of NzMatrix4f.  mulFull is operator* and Concatenate,
mulAffine is ConcatenateAffine, inverseOf is the result written by
GetInverse (inversion failure is a non-fatal warning in the source and
none of the claims depends on the inverse value, so it is modelled as
always producing a term). -/
inductive NzMatrix4f where
  | ident : NzMatrix4f
  | user : Nat → NzMatrix4f
  | mulFull : NzMatrix4f → NzMatrix4f → NzMatrix4f
  | mulAffine : NzMatrix4f → NzMatrix4f → NzMatrix4f
  | inverseOf : NzMatrix4f → NzMatrix4f
  deriving DecidableEq

/-- nzMatrixType, in declaration order. -/
inductive MatrixType where
  | Projection | View | World
  | ViewProj | WorldView | WorldViewProj
  | InvProjection | InvView | InvViewProj
  | InvWorld | InvWorldView | InvWorldViewProj
  deriving DecidableEq

/-- One entry of s_matrices: the matrix, the updated flag and the cached
uniform location for the active program. -/
structure MatrixUnit where
  matrix : NzMatrix4f
  updated : Bool
  location : Int
  deriving DecidableEq

/-- The s_matrices array, one named field per nzMatrixType slot. -/
structure Matrices where
  proj : MatrixUnit
  view : MatrixUnit
  world : MatrixUnit
  viewProj : MatrixUnit
  worldView : MatrixUnit
  worldViewProj : MatrixUnit
  invProj : MatrixUnit
  invView : MatrixUnit
  invViewProj : MatrixUnit
  invWorld : MatrixUnit
  invWorldView : MatrixUnit
  invWorldViewProj : MatrixUnit
  deriving DecidableEq

def getUnit (m : Matrices) : MatrixType → MatrixUnit
  | .Projection => m.proj
  | .View => m.view
  | .World => m.world
  | .ViewProj => m.viewProj
  | .WorldView => m.worldView
  | .WorldViewProj => m.worldViewProj
  | .InvProjection => m.invProj
  | .InvView => m.invView
  | .InvViewProj => m.invViewProj
  | .InvWorld => m.invWorld
  | .InvWorldView => m.invWorldView
  | .InvWorldViewProj => m.invWorldViewProj

def setUnit (m : Matrices) (t : MatrixType) (u : MatrixUnit) : Matrices :=
  match t with
  | .Projection => {m with proj := u}
  | .View => {m with view := u}
  | .World => {m with world := u}
  | .ViewProj => {m with viewProj := u}
  | .WorldView => {m with worldView := u}
  | .WorldViewProj => {m with worldViewProj := u}
  | .InvProjection => {m with invProj := u}
  | .InvView => {m with invView := u}
  | .InvViewProj => {m with invViewProj := u}
  | .InvWorld => {m with invWorld := u}
  | .InvWorldView => {m with invWorldView := u}
  | .InvWorldViewProj => {m with invWorldViewProj := u}

/-- Mark a slot stale (updated = false), keeping matrix and location. -/
def clearUpdated (m : Matrices) (t : MatrixType) : Matrices :=
  setUnit m t {getUnit m t with updated := false}

/-- Store a freshly recomputed matrix in a slot (updated = true). -/
def storeMatrix (m : Matrices) (t : MatrixType) (v : NzMatrix4f) : Matrices :=
  setUnit m t {getUnit m t with matrix := v, updated := true}

/-- Initialize(): every slot holds the identity, updated, location -1. -/
def initMatrices : Matrices :=
  let u : MatrixUnit := ⟨NzMatrix4f.ident, true, -1⟩
  ⟨u, u, u, u, u, u, u, u, u, u, u, u⟩

/-- UpdateMatrix, base-matrix cases: only mark the slot current. -/
def updBase (m : Matrices) (t : MatrixType) : Matrices :=
  setUnit m t {getUnit m t with updated := true}

/-- UpdateMatrix(ViewProj): View.matrix * Projection.matrix. -/
def updViewProj (m : Matrices) : Matrices :=
  storeMatrix m .ViewProj (NzMatrix4f.mulFull m.view.matrix m.proj.matrix)

/-- UpdateMatrix(WorldView): World, then ConcatenateAffine(View). -/
def updWorldView (m : Matrices) : Matrices :=
  storeMatrix m .WorldView (NzMatrix4f.mulAffine m.world.matrix m.view.matrix)

/-- UpdateMatrix(WorldViewProj): updates WorldView first when stale, then
WorldView.matrix Concatenate Projection.matrix. -/
def updWorldViewProj (m : Matrices) : Matrices :=
  let m := if !m.worldView.updated then updWorldView m else m
  storeMatrix m .WorldViewProj (NzMatrix4f.mulFull m.worldView.matrix m.proj.matrix)

/-- UpdateMatrix(InvProjection). -/
def updInvProjection (m : Matrices) : Matrices :=
  let m := if !m.proj.updated then updBase m .Projection else m
  storeMatrix m .InvProjection (NzMatrix4f.inverseOf m.proj.matrix)

/-- UpdateMatrix(InvView). -/
def updInvView (m : Matrices) : Matrices :=
  let m := if !m.view.updated then updBase m .View else m
  storeMatrix m .InvView (NzMatrix4f.inverseOf m.view.matrix)

/-- UpdateMatrix(InvViewProj). -/
def updInvViewProj (m : Matrices) : Matrices :=
  let m := if !m.viewProj.updated then updViewProj m else m
  storeMatrix m .InvViewProj (NzMatrix4f.inverseOf m.viewProj.matrix)

/-- UpdateMatrix(InvWorld). -/
def updInvWorld (m : Matrices) : Matrices :=
  let m := if !m.world.updated then updBase m .World else m
  storeMatrix m .InvWorld (NzMatrix4f.inverseOf m.world.matrix)

/-- UpdateMatrix(InvWorldView). -/
def updInvWorldView (m : Matrices) : Matrices :=
  let m := if !m.worldView.updated then updWorldView m else m
  storeMatrix m .InvWorldView (NzMatrix4f.inverseOf m.worldView.matrix)

/-- UpdateMatrix(InvWorldViewProj). -/
def updInvWorldViewProj (m : Matrices) : Matrices :=
  let m := if !m.worldViewProj.updated then updWorldViewProj m else m
  storeMatrix m .InvWorldViewProj (NzMatrix4f.inverseOf m.worldViewProj.matrix)

/-- NzRenderer::UpdateMatrix over the s_matrices array (the bounded
recursion of the source is lambda-lifted into the helpers above, in
dependency order). -/
def UpdateMatrixOn (m : Matrices) : MatrixType → Matrices
  | .Projection => updBase m .Projection
  | .View => updBase m .View
  | .World => updBase m .World
  | .ViewProj => updViewProj m
  | .WorldView => updWorldView m
  | .WorldViewProj => updWorldViewProj m
  | .InvProjection => updInvProjection m
  | .InvView => updInvView m
  | .InvViewProj => updInvViewProj m
  | .InvWorld => updInvWorld m
  | .InvWorldView => updInvWorldView m
  | .InvWorldViewProj => updInvWorldViewProj m

/-- The invalidation switch of NzRenderer::SetMatrix, reproduced slot for
slot from the source (including the View case, which clears World and
InvWorld and does not clear WorldView or InvWorldView). -/
def invalidateDependents (t : MatrixType) (m : Matrices) : Matrices :=
  match t with
  | .Projection =>
      clearUpdated (clearUpdated (clearUpdated (clearUpdated (clearUpdated m
        .InvProjection) .InvViewProj) .InvWorldViewProj) .ViewProj) .WorldViewProj
  | .View =>
      clearUpdated (clearUpdated (clearUpdated (clearUpdated (clearUpdated (clearUpdated (clearUpdated m
        .InvView) .InvViewProj) .InvWorld) .InvWorldViewProj) .ViewProj) .World) .WorldViewProj
  | .World =>
      clearUpdated (clearUpdated (clearUpdated (clearUpdated (clearUpdated m
        .InvWorld) .InvWorldView) .InvWorldViewProj) .WorldView) .WorldViewProj
  | .ViewProj => clearUpdated m .InvViewProj
  | .WorldView => clearUpdated (clearUpdated m .InvWorldView) .WorldViewProj
  | .WorldViewProj => clearUpdated m .InvWorldViewProj
  | _ => m

/-! Generic association lists, modelling the std::map containers.
Lookup returns the first matching entry; replace rewrites entries in
place, as mutation through a map iterator does. -/

def alistFind {κ α : Type} [DecidableEq κ] (k : κ) : List (κ × α) → Option α
  | [] => none
  | p :: l => if p.1 = k then some p.2 else alistFind k l

def alistReplace {κ α : Type} [DecidableEq κ] (k : κ) (v : α) (l : List (κ × α)) : List (κ × α) :=
  l.map (fun p => if p.1 = k then (k, v) else p)

/-! GPU resource handles.  The addr field stands for the object address;
all other fields are attributes the code reads through the pointer. -/

structure NzIndexBuffer where
  addr : Nat
  isHardware : Bool
  deriving DecidableEq

/-- decl is the address of the vertex declaration returned by
GetVertexDeclaration. -/
structure NzVertexBuffer where
  addr : Nat
  isHardware : Bool
  decl : Nat
  deriving DecidableEq

structure NzTexture where
  addr : Nat
  hasMipmaps : Bool
  deriving DecidableEq

structure NzRenderTarget where
  width : Nat
  height : Nat
  deriving DecidableEq

/-- The shader program: uniform locations by semantic name (-1 when the
uniform is absent from the program). -/
structure NzShaderProgram where
  matLoc : MatrixType → Int
  locTargetSize : Int
  locInvTargetSize : Int

/-- NzTextureSampler, reduced to the attribute SetTexture interacts with
(UseMipmaps reports whether the mipmap setting changed). -/
structure NzTextureSampler where
  mipmaps : Bool
  deriving DecidableEq

/-- One entry of s_textureUnits. -/
structure TextureUnit where
  sampler : NzTextureSampler
  texture : Option NzTexture
  samplerUpdated : Bool
  textureUpdated : Bool
  deriving DecidableEq

/-- In-class member initializers of the TextureUnit struct. -/
def defaultTextureUnit : TextureUnit :=
  ⟨⟨false⟩, none, false, true⟩

/-- The s_updateFlags bitmask, one field per UpdateFlags bit. -/
structure UpdateFlags where
  matrices : Bool
  program : Bool
  textures : Bool
  vao : Bool
  deriving DecidableEq

/-- s_updateFlags != Update_None. -/
def flagsAny (f : UpdateFlags) : Bool :=
  f.matrices || f.program || f.textures || f.vao

/-- VAO_Key: (index buffer, vertex buffer, vertex declaration,
instancing declaration or null). -/
structure VaoKey where
  ib : Option NzIndexBuffer
  vb : NzVertexBuffer
  decl : Nat
  instDecl : Option Nat
  deriving DecidableEq

/-- s_vaos: per-context map from VAO key to the GL vertex-array name. -/
abbrev VaoMap : Type := List (Nat × List (VaoKey × Nat))

/-- The mirrored pipeline state: the namespace-scope globals of the
renderer translation unit that the claims touch. -/
structure RState where
  matrices : Matrices
  targetSize : Nat × Nat
  dirtyTextureUnits : List Nat
  textureUnits : List TextureUnit
  updateFlags : UpdateFlags
  indexBuffer : Option NzIndexBuffer
  vertexBuffer : Option NzVertexBuffer
  target : Option NzRenderTarget
  program : Option NzShaderProgram
  instancing : Bool
  instancingDecl : Option Nat
  vaos : VaoMap
  vaoCounter : Nat
  currentVAO : Nat

/-- Ambient configuration: the current context and the capabilities
probed at Initialize. -/
structure Config where
  currentContext : Option Nat
  useSamplerObjects : Bool
  useVAO : Bool

/-- std::set<unsigned int>::insert on the dirty-unit set. -/
def setInsert (n : Nat) : List Nat → List Nat
  | [] => [n]
  | x :: xs => if n < x then n :: x :: xs else if n = x then x :: xs else x :: setInsert n xs

/-- NzRenderer::SetMatrix: store the value, mark the slot current,
invalidate the dependent slots, raise Update_Matrices. -/
def SetMatrix (t : MatrixType) (matrix : NzMatrix4f) (st : RState) : RState :=
  let ms := setUnit st.matrices t {getUnit st.matrices t with matrix := matrix, updated := true}
  {st with matrices := invalidateDependents t ms,
           updateFlags := {st.updateFlags with matrices := true}}

/-- NzRenderer::GetMatrix: recompute the slot first when it is stale. -/
def GetMatrix (t : MatrixType) (st : RState) : NzMatrix4f × RState :=
  let ms := if !(getUnit st.matrices t).updated then UpdateMatrixOn st.matrices t else st.matrices
  ((getUnit ms t).matrix, {st with matrices := ms})

/-- NzRenderer::SetIndexBuffer. -/
def SetIndexBuffer (indexBuffer : Option NzIndexBuffer) (st : RState) : RState :=
  if (match indexBuffer with | some ib => !ib.isHardware | none => false) then st
  else if st.indexBuffer ≠ indexBuffer then
    {st with indexBuffer := indexBuffer, updateFlags := {st.updateFlags with vao := true}}
  else st

/-- NzRenderer::SetVertexBuffer: note the guard requires a non-null
pointer before anything is recorded. -/
def SetVertexBuffer (vertexBuffer : Option NzVertexBuffer) (st : RState) : RState :=
  if (match vertexBuffer with | some vb => !vb.isHardware | none => false) then st
  else if (match vertexBuffer with | some _ => true | none => false)
          && decide (st.vertexBuffer ≠ vertexBuffer) then
    {st with vertexBuffer := vertexBuffer, updateFlags := {st.updateFlags with vao := true}}
  else st

/-- NzRenderer::SetTexture.  The range check mirrors the
NAZARA_RENDERER_SAFE guard; s_maxTextureUnit is the length of
s_textureUnits. -/
def SetTexture (unit : Nat) (texture : Option NzTexture) (st : RState) : RState :=
  if st.textureUnits.length ≤ unit then st
  else
    let u := st.textureUnits.getD unit defaultTextureUnit
    if u.texture ≠ texture then
      let u1 := {u with texture := texture, textureUpdated := false}
      let u2 := match texture with
        | some t =>
            if u1.sampler.mipmaps ≠ t.hasMipmaps then
              {u1 with sampler := ⟨t.hasMipmaps⟩, samplerUpdated := false}
            else u1
        | none => u1
      {st with textureUnits := st.textureUnits.set unit u2,
               dirtyTextureUnits := setInsert unit st.dirtyTextureUnits,
               updateFlags := {st.updateFlags with textures := true}}
    else st

/-- NzRenderer::EnableInstancing. -/
def EnableInstancing (instancing : Bool) (st : RState) : RState :=
  if st.instancing ≠ instancing then
    {st with instancing := instancing, updateFlags := {st.updateFlags with vao := true}}
  else st

/-! The VAO memoization table (EnsureStateUpdate, Update_VAO branch, and
the anonymous ResourceListener). -/

/-- The VAO block of EnsureStateUpdate: ensure the context has a submap,
then find the key or create a fresh vertex array for it.  Returns the
handle, the new map, the new fresh-name counter and whether the entry was
just created (in which case the attributes must be programmed). -/
def vaoLookup (m : VaoMap) (ctx : Nat) (key : VaoKey) (counter : Nat) :
    Nat × VaoMap × Nat × Bool :=
  let m1 : VaoMap := match alistFind ctx m with
    | some _ => m
    | none => m ++ [(ctx, [])]
  let sub := (alistFind ctx m1).getD []
  match alistFind key sub with
  | some handle => (handle, m1, counter, false)
  | none => (counter, alistReplace ctx (sub ++ [(key, counter)]) m1, counter + 1, true)

/-- ResourceListener::OnResourceReleased, ResourceType_Context: drop the
whole per-context submap. -/
def OnContextReleased (ctx : Nat) (m : VaoMap) : VaoMap :=
  m.filter (fun p => !decide (p.1 = ctx))

/-- ResourceListener::OnResourceReleased, ResourceType_IndexBuffer: in
every context, erase the entries whose key holds this index buffer. -/
def OnIndexBufferReleased (ib : NzIndexBuffer) (m : VaoMap) : VaoMap :=
  m.map (fun p => (p.1, p.2.filter (fun e => !decide (e.1.ib = some ib))))

/-- ResourceListener::OnResourceReleased, ResourceType_VertexBuffer. -/
def OnVertexBufferReleased (vb : NzVertexBuffer) (m : VaoMap) : VaoMap :=
  m.map (fun p => (p.1, p.2.filter (fun e => !decide (e.1.vb = vb))))

/-- ResourceListener::OnResourceReleased, ResourceType_VertexDeclaration:
a declaration may appear as the vertex declaration or as the instancing
declaration of a key. -/
def OnVertexDeclarationReleased (d : Nat) (m : VaoMap) : VaoMap :=
  m.map (fun p => (p.1, p.2.filter (fun e => !(decide (e.1.decl = d) || decide (e.1.instDecl = some d)))))

/-- Flattened view of the cache: (context, key, handle) triples. -/
def vaoEntries (m : VaoMap) : List (Nat × VaoKey × Nat) :=
  m.flatMap (fun p => p.2.map (fun e => (p.1, e.1, e.2)))

/-! EnsureStateUpdate.  The GPU side effects are recorded as an operation
trace; NzOpenGL::BindTexture in the defensive re-validation loop goes
through the cached NzOpenGL binding layer and is recorded separately from
the dirty-unit texture rebinds. -/

inductive GpuOp where
  | bindProgram
  | resolveUniformLocations
  | bindProgramTextures
  | sendVector
  | bindTextureUnit : Nat → GpuOp
  | ensureMipmaps : Nat → GpuOp
  | bindSampler : Nat → GpuOp
  | applySampler : Nat → GpuOp
  | sendMatrix : MatrixType → GpuOp
  | programAttribs
  | bindVao
  | cachedBindTexture : Nat → GpuOp
  | applyStates
  deriving DecidableEq

/-- The operations the idempotence property rules out on a second call:
texture rebinds, matrix resends, vertex-array reprogramming,
uniform-location re-resolution (and target-size uniform resends). -/
def reconcileOp : GpuOp → Bool
  | .bindProgram | .bindProgramTextures | .bindVao | .cachedBindTexture _ | .applyStates => false
  | _ => true

/-- Update_Program block: re-resolve every matrix uniform location
against the program, force the target-size resend, raise Update_Matrices
and drop Update_Program. -/
def relocateUniforms (m : Matrices) (prog : NzShaderProgram) : Matrices :=
  { proj := {m.proj with location := prog.matLoc .Projection}
    view := {m.view with location := prog.matLoc .View}
    world := {m.world with location := prog.matLoc .World}
    viewProj := {m.viewProj with location := prog.matLoc .ViewProj}
    worldView := {m.worldView with location := prog.matLoc .WorldView}
    worldViewProj := {m.worldViewProj with location := prog.matLoc .WorldViewProj}
    invProj := {m.invProj with location := prog.matLoc .InvProjection}
    invView := {m.invView with location := prog.matLoc .InvView}
    invViewProj := {m.invViewProj with location := prog.matLoc .InvViewProj}
    invWorld := {m.invWorld with location := prog.matLoc .InvWorld}
    invWorldView := {m.invWorldView with location := prog.matLoc .InvWorldView}
    invWorldViewProj := {m.invWorldViewProj with location := prog.matLoc .InvWorldViewProj} }

def esuProgramBlock (prog : NzShaderProgram) (st : RState) : RState × List GpuOp :=
  if st.updateFlags.program then
    ({st with matrices := relocateUniforms st.matrices prog,
              targetSize := (0, 0),
              updateFlags := {st.updateFlags with matrices := true, program := false}},
     [GpuOp.resolveUniformLocations])
  else (st, [])

/-- Target-size uniform block: resend the (inverse) target size when the
target dimensions moved, skipping absent uniforms. -/
def esuTargetSizeBlock (prog : NzShaderProgram) (tgt : NzRenderTarget) (st : RState) :
    RState × List GpuOp :=
  if st.targetSize ≠ (tgt.width, tgt.height) then
    ({st with targetSize := (tgt.width, tgt.height)},
     (if prog.locInvTargetSize ≠ -1 then [GpuOp.sendVector] else []) ++
     (if prog.locTargetSize ≠ -1 then [GpuOp.sendVector] else []))
  else (st, [])

/-- Processing of one dirty texture unit (both the sampler-object path
and the samplerless fallback). -/
def applyDirtyUnit (useSampler : Bool) (acc : List TextureUnit × List GpuOp) (i : Nat) :
    List TextureUnit × List GpuOp :=
  let u := acc.1.getD i defaultTextureUnit
  match u.texture with
  | none => acc
  | some _ =>
    if useSampler then
      let p1 := if !u.textureUpdated then
          (({u with textureUpdated := true} : TextureUnit), [GpuOp.bindTextureUnit i, GpuOp.ensureMipmaps i])
        else (u, [])
      let p2 := if !p1.1.samplerUpdated then
          (({p1.1 with samplerUpdated := true} : TextureUnit), [GpuOp.bindSampler i])
        else (p1.1, ([] : List GpuOp))
      (acc.1.set i p2.1, acc.2 ++ p1.2 ++ p2.2)
    else
      (acc.1.set i {u with textureUpdated := true, samplerUpdated := true},
       acc.2 ++ [GpuOp.bindTextureUnit i, GpuOp.ensureMipmaps i, GpuOp.applySampler i])

/-- Update_Textures block. -/
def esuTextures (useSampler : Bool) (st : RState) : RState × List GpuOp :=
  if st.updateFlags.textures then
    let r := st.dirtyTextureUnits.foldl (applyDirtyUnit useSampler) (st.textureUnits, [])
    ({st with textureUnits := r.1, dirtyTextureUnits := [],
              updateFlags := {st.updateFlags with textures := false}}, r.2)
  else (st, [])

def allMatrixTypes : List MatrixType :=
  [.Projection, .View, .World, .ViewProj, .WorldView, .WorldViewProj,
   .InvProjection, .InvView, .InvViewProj, .InvWorld, .InvWorldView, .InvWorldViewProj]

/-- One iteration of the Update_Matrices loop: slots absent from the
program are skipped, stale slots are recomputed, then sent. -/
def sendMatrixStep (acc : Matrices × List GpuOp) (t : MatrixType) : Matrices × List GpuOp :=
  let u := getUnit acc.1 t
  if u.location ≠ -1 then
    (if !u.updated then UpdateMatrixOn acc.1 t else acc.1, acc.2 ++ [GpuOp.sendMatrix t])
  else acc

/-- Update_Matrices block. -/
def esuMatrices (st : RState) : RState × List GpuOp :=
  if st.updateFlags.matrices then
    let r := allMatrixTypes.foldl sendMatrixStep (st.matrices, [])
    ({st with matrices := r.1, updateFlags := {st.updateFlags with matrices := false}}, r.2)
  else (st, [])

/-- Update_VAO block.  Fails (like the source, after the earlier
categories were already flushed) when no vertex buffer is bound.  With
VAO support the cached configuration is looked up and only a freshly
created one is programmed, and the flag is dropped; without VAO support
the attributes are reprogrammed and the flag deliberately stays set. -/
def esuVao (useVAO : Bool) (ctx : Nat) (st : RState) : Bool × RState × List GpuOp :=
  if st.updateFlags.vao then
    match st.vertexBuffer with
    | none => (false, st, [])
    | some vb =>
      if useVAO then
        let key : VaoKey := ⟨st.indexBuffer, vb, vb.decl, if st.instancing then st.instancingDecl else none⟩
        let r := vaoLookup st.vaos ctx key st.vaoCounter
        (true,
         {st with vaos := r.2.1, vaoCounter := r.2.2.1, currentVAO := r.1,
                  updateFlags := {st.updateFlags with vao := false}},
         if r.2.2.2 then [GpuOp.programAttribs] else [])
      else (true, st, [GpuOp.programAttribs])
  else (true, st, [])

/-- The dirty-category dispatch, guarded by s_updateFlags != Update_None,
in the fixed order textures, matrices, vertex-array. -/
def esuFlagsBlock (cfg : Config) (ctx : Nat) (st : RState) : Bool × RState × List GpuOp :=
  if flagsAny st.updateFlags then
    let a := esuTextures cfg.useSamplerObjects st
    let b := esuMatrices a.1
    let c := esuVao cfg.useVAO ctx b.1
    (c.1, c.2.1, a.2 ++ b.2 ++ c.2.2)
  else (true, st, [])

/-- The defensive re-validation loop over every texture unit holding a
texture (through the cached NzOpenGL binding layer). -/
def defensiveBinds (units : List TextureUnit) : List GpuOp :=
  (List.range units.length).filterMap
    (fun i => if (units.getD i defaultTextureUnit).texture.isSome
              then some (GpuOp.cachedBindTexture i) else none)

/-- Trailing operations of a successful call: VAO bind, defensive texture
re-validation, unconditional render-state application. -/
def esuTail (cfg : Config) (st : RState) : List GpuOp :=
  (if cfg.useVAO then [GpuOp.bindVao] else []) ++ defensiveBinds st.textureUnits ++ [GpuOp.applyStates]

/-- NzRenderer::EnsureStateUpdate.  Returns the success flag, the state
left behind (the globals persist even on a failed call) and the recorded
operation trace. -/
def EnsureStateUpdate (cfg : Config) (st : RState) : Bool × RState × List GpuOp :=
  match cfg.currentContext with
  | none => (false, st, [])
  | some ctx =>
    match st.program, st.target with
    | none, _ => (false, st, [])
    | some _, none => (false, st, [])
    | some prog, some tgt =>
      let a := esuProgramBlock prog st
      let b := esuTargetSizeBlock prog tgt a.1
      let c := esuFlagsBlock cfg ctx b.1
      if c.1 then
        (true, c.2.1,
         GpuOp.bindProgram :: a.2 ++ GpuOp.bindProgramTextures :: b.2 ++ c.2.2 ++ esuTail cfg c.2.1)
      else
        (false, c.2.1, GpuOp.bindProgram :: a.2 ++ GpuOp.bindProgramTextures :: b.2 ++ c.2.2)

/-- The renderer globals right after Initialize (identity matrices,
nothing bound, matrices/program/vao categories dirty), with n texture
units. -/
def initRState (n : Nat) : RState :=
  { matrices := initMatrices
    targetSize := (0, 0)
    dirtyTextureUnits := []
    textureUnits := List.replicate n defaultTextureUnit
    updateFlags := ⟨true, true, false, true⟩
    indexBuffer := none
    vertexBuffer := none
    target := none
    program := none
    instancing := false
    instancingDecl := none
    vaos := []
    vaoCounter := 1
    currentVAO := 0 }

/-! The deferred render queue (NzDeferredRenderQueue). -/

/-- A material as the queue reads it: its address, whether blending is
enabled, the compiled programs for the flag combinations the comparators
probe, and the diffuse map (program and texture fields hold addresses,
0 standing for a null pointer). -/
structure NzMaterial where
  progDeferred : Nat
  progDeferredInstancing : Nat
  diffuseMap : Nat
  blend : Bool
  addr : Nat
  deriving DecidableEq

inductive AnimationType where
  | skeletal
  | staticMesh
  deriving DecidableEq

/-- A submesh as AddSubMesh reads it. -/
structure QSubMesh where
  anim : AnimationType
  meshAddr : Nat
  deriving DecidableEq

/-- A resource the queue registered itself on as destruction listener. -/
inductive QRes where
  | mat : Nat → QRes
  | skMesh : Nat → QRes
  | stMesh : Nat → QRes
  deriving DecidableEq

/-- One value of the opaqueModels map: the used and enable-instancing
flags, the (never populated) skeletal submap and the static submap from
mesh address to the per-instance transform list (transforms modelled as
opaque tags). -/
structure BatchEntry where
  used : Bool
  enableInst : Bool
  skeletal : List Nat
  statics : List (Nat × List Nat)
  deriving DecidableEq

def defaultBatchEntry : BatchEntry := ⟨false, false, [], []⟩

/-- The queue state; fwdSubMeshes and fwdClear record what was forwarded
to the companion forward queue. -/
structure QState where
  directionalLights : List Nat
  pointLights : List Nat
  spotLights : List Nat
  opaqueModels : List (Nat × BatchEntry)
  sprites : List (Nat × List Nat)
  listeners : List QRes
  fwdSubMeshes : List Nat
  fwdClear : Option Bool
  deriving DecidableEq

/-- NzDeferredRenderQueue::AddSubMesh.  th is the configured
NAZARA_GRAPHICS_INSTANCING_MIN_INSTANCES_COUNT threshold.  Skeletal
geometry is reported and dropped; static blended geometry is forwarded;
static opaque geometry is batched by (material, mesh), appending the
transform and raising the instancing flag once the instance count reaches
the threshold. -/
def AddSubMesh (th : Nat) (material : NzMaterial) (subMesh : QSubMesh) (tm : Nat)
    (st : QState) : QState :=
  match subMesh.anim with
  | .skeletal => st
  | .staticMesh =>
    if material.blend then {st with fwdSubMeshes := st.fwdSubMeshes ++ [tm]}
    else
      let fresh := (alistFind material.addr st.opaqueModels).isNone
      let models1 := if fresh then st.opaqueModels ++ [(material.addr, defaultBatchEntry)]
                     else st.opaqueModels
      let ls1 := if fresh then st.listeners ++ [QRes.mat material.addr] else st.listeners
      let e0 := (alistFind material.addr models1).getD defaultBatchEntry
      let e1 := {e0 with used := true}
      let freshMesh := (alistFind subMesh.meshAddr e1.statics).isNone
      let e2 := if freshMesh then {e1 with statics := e1.statics ++ [(subMesh.meshAddr, [])]}
                else e1
      let ls2 := if freshMesh then ls1 ++ [QRes.stMesh subMesh.meshAddr] else ls1
      let old := (alistFind subMesh.meshAddr e2.statics).getD []
      let instanceCount := old.length + 1
      let e3 := {e2 with enableInst := if th ≤ instanceCount then true else e2.enableInst,
                         statics := alistReplace subMesh.meshAddr (old ++ [tm]) e2.statics}
      {st with opaqueModels := alistReplace material.addr e3 models1, listeners := ls2}

/-- Does the queue hold this resource as a key of its batch table (the
exact set Clear(true) deregisters from)? -/
def registeredKey (st : QState) (r : QRes) : Bool :=
  match r with
  | .mat a => (alistFind a st.opaqueModels).isSome
  | .skMesh a => st.opaqueModels.any (fun p => p.2.skeletal.contains a)
  | .stMesh a => st.opaqueModels.any (fun p => (alistFind a p.2.statics).isSome)

/-- NzDeferredRenderQueue::Clear: always clears the three light lists and
forwards the flag; the full form also walks the batch table removing this
listener from every material and mesh key and empties both tables. -/
def Clear (fully : Bool) (st : QState) : QState :=
  let base := {st with directionalLights := [], pointLights := [], spotLights := [],
                       fwdClear := some fully}
  if fully then
    {base with opaqueModels := [], sprites := [],
               listeners := st.listeners.filter (fun r => !registeredKey st r)}
  else base

/-! The ordering comparators of NzDeferredRenderQueue. -/

/-- BatchedModelMaterialComparator::operator(): program identity under
nzShaderFlags_Deferred, then under Deferred|Instancing (the
possibleFlags loop unrolled), then diffuse map, then raw identity. -/
def BatchedModelMaterialComparator (mat1 mat2 : NzMaterial) : Bool :=
  if mat1.progDeferred ≠ mat2.progDeferred then decide (mat1.progDeferred < mat2.progDeferred)
  else if mat1.progDeferredInstancing ≠ mat2.progDeferredInstancing then
    decide (mat1.progDeferredInstancing < mat2.progDeferredInstancing)
  else if mat1.diffuseMap ≠ mat2.diffuseMap then decide (mat1.diffuseMap < mat2.diffuseMap)
  else decide (mat1.addr < mat2.addr)

/-- A skeletal submesh as the comparator reads it: the storage buffer
behind GetIndexBuffer (none when the index-buffer pointer is null), the
storage buffer behind GetVertexBuffer, and the raw address. -/
structure NzSkeletalMesh where
  iBuf : Option Nat
  vBuf : Nat
  addr : Nat
  deriving DecidableEq

structure NzStaticMesh where
  iBuf : Option Nat
  vBuf : Nat
  addr : Nat
  deriving DecidableEq

/-- BatchedSkeletalMeshComparator::operator(), line for line: both
buffer1 and buffer2 are read from subMesh1, and the else branch compares
buffer2 with itself (null buffer pointers compare as 0). -/
def BatchedSkeletalMeshComparator (subMesh1 subMesh2 : NzSkeletalMesh) : Bool :=
  let buffer1 := match subMesh1.iBuf with | some b => b | none => 0
  let buffer2 := match subMesh1.iBuf with | some b => b | none => 0
  if buffer1 = buffer2 then decide (subMesh1.addr < subMesh2.addr)
  else decide (buffer2 < buffer2)

/-- BatchedStaticMeshComparator::operator(): index-buffer storage, then
vertex-buffer storage, then raw identity. -/
def BatchedStaticMeshComparator (subMesh1 subMesh2 : NzStaticMesh) : Bool :=
  let buffer1 := match subMesh1.iBuf with | some b => b | none => 0
  let buffer2 := match subMesh2.iBuf with | some b => b | none => 0
  if buffer1 = buffer2 then
    let vBuffer1 := subMesh1.vBuf
    let vBuffer2 := subMesh2.vBuf
    if vBuffer1 = vBuffer2 then decide (subMesh1.addr < subMesh2.addr)
    else decide (vBuffer1 < vBuffer2)
  else decide (buffer1 < buffer2)

/-- Modelled from the spec (the three-stage mesh ordering both
comparators are claimed to implement): index-buffer storage identity,
then vertex-buffer storage identity, then raw identity, each stage
comparing submesh 1 against submesh 2. -/
def skeletalComparatorSpec (subMesh1 subMesh2 : NzSkeletalMesh) : Bool :=
  let buffer1 := match subMesh1.iBuf with | some b => b | none => 0
  let buffer2 := match subMesh2.iBuf with | some b => b | none => 0
  if buffer1 = buffer2 then
    if subMesh1.vBuf = subMesh2.vBuf then decide (subMesh1.addr < subMesh2.addr)
    else decide (subMesh1.vBuf < subMesh2.vBuf)
  else decide (buffer1 < buffer2)

/-- Submitting a whole list of transforms for one (material, submesh)
pair, one AddSubMesh call per element. -/
def AddSubMeshRun (th : Nat) (material : NzMaterial) (subMesh : QSubMesh) (tms : List Nat)
    (st : QState) : QState :=
  tms.foldl (fun s tm => AddSubMesh th material subMesh tm s) st

/-- The enable-instancing flag of a material batch entry (false when the
entry is absent). -/
def entryInstOf (st : QState) (m : Nat) : Bool :=
  ((alistFind m st.opaqueModels).getD defaultBatchEntry).enableInst

/-- The per-instance transform list of a (material, mesh) pair (empty
when absent). -/
def instListOf (st : QState) (m mesh : Nat) : List Nat :=
  (alistFind mesh ((alistFind m st.opaqueModels).getD defaultBatchEntry).statics).getD []

/-! Concrete example states used by counterexamples and witnesses. -/

/-- A texture-dirty state with no vertex buffer bound: program and target
present, Update_Textures and Update_VAO raised, unit 0 dirty. -/
def exC2st : RState :=
  { matrices := initMatrices
    targetSize := (0, 0)
    dirtyTextureUnits := [0]
    textureUnits := [⟨⟨false⟩, some ⟨1, false⟩, true, false⟩]
    updateFlags := ⟨false, false, true, true⟩
    indexBuffer := none
    vertexBuffer := none
    target := some ⟨0, 0⟩
    program := some ⟨fun _ => -1, -1, -1⟩
    instancing := false
    instancingDecl := none
    vaos := []
    vaoCounter := 1
    currentVAO := 0 }

/-- A drawable state: program, target and vertex buffer bound on top of
the initial state. -/
def exDrawableSt : RState :=
  { initRState 0 with
      program := some ⟨fun _ => -1, -1, -1⟩
      target := some ⟨0, 0⟩
      vertexBuffer := some ⟨1, true, 2⟩ }

/-- The same drawable state with only the vertex-array category dirty. -/
def exVaoOnlySt : RState :=
  { exDrawableSt with updateFlags := ⟨false, false, false, true⟩ }

/-- An example queue state: one batched material with one static mesh,
both registered as listeners. -/
def exQSt : QState :=
  ⟨[], [], [], [(1, ⟨true, false, [], [(2, [5])]⟩)], [], [QRes.mat 1, QRes.stMesh 2], [], none⟩

/-! ## Supporting lemmas -/

theorem uf_eta_textures (f : UpdateFlags) (h : f.textures = false) :
    ({f with textures := false} : UpdateFlags) = f := by
  cases f; simp_all

theorem uf_eta_matrices (f : UpdateFlags) (h : f.matrices = false) :
    ({f with matrices := false} : UpdateFlags) = f := by
  cases f; simp_all

theorem uf_eta_vao (f : UpdateFlags) (h : f.vao = false) :
    ({f with vao := false} : UpdateFlags) = f := by
  cases f; simp_all

theorem flagsAny_false_iff (f : UpdateFlags) :
    flagsAny f = false ↔ f = ⟨false, false, false, false⟩ := by
  cases f
  simp [flagsAny]
  tauto

@[simp]
theorem alistFind_cons {κ α : Type} [DecidableEq κ] {k : κ} {p : κ × α} {t : List (κ × α)} :
    alistFind k (p :: t) = if p.1 = k then some p.2 else alistFind k t := rfl

@[simp]
theorem alistFind_nil {κ α : Type} [DecidableEq κ] {k : κ} :
    alistFind k ([] : List (κ × α)) = none := rfl

@[simp]
theorem alistReplace_cons {κ α : Type} [DecidableEq κ] {k : κ} {v : α} {p : κ × α}
    {t : List (κ × α)} :
    alistReplace k v (p :: t) = (if p.1 = k then (k, v) else p) :: alistReplace k v t := by
  unfold alistReplace
  simp

@[simp]
theorem alistReplace_nil {κ α : Type} [DecidableEq κ] {k : κ} {v : α} :
    alistReplace k v ([] : List (κ × α)) = [] := rfl

theorem alistFind_append_none {κ α : Type} [DecidableEq κ] {l1 : List (κ × α)}
    (l2 : List (κ × α)) {k : κ} (h : alistFind k l1 = none) :
    alistFind k (l1 ++ l2) = alistFind k l2 := by
  induction l1 with
  | nil => rfl
  | cons p t ih =>
    by_cases hp : p.1 = k
    · simp [hp] at h
    · rw [List.cons_append, alistFind_cons, if_neg hp]
      rw [alistFind_cons, if_neg hp] at h
      exact ih h

theorem alistFind_replace_self {κ α : Type} [DecidableEq κ] {l : List (κ × α)} {k : κ}
    (v : α) (h : (alistFind k l).isSome) :
    alistFind k (alistReplace k v l) = some v := by
  induction l with
  | nil => simp at h
  | cons p t ih =>
    by_cases hp : p.1 = k
    · simp [hp]
    · rw [alistFind_cons, if_neg hp] at h
      simp [hp, ih h]

theorem alistFind_replace_isSome {κ α : Type} [DecidableEq κ] {l : List (κ × α)} {k k' : κ}
    {v : α} : (alistFind k' (alistReplace k v l)).isSome = (alistFind k' l).isSome := by
  induction l with
  | nil => rfl
  | cons p t ih =>
    by_cases hp : p.1 = k
    · by_cases hk : p.1 = k'
      · have hkk : k = k' := hp ▸ hk
        simp [hp, hk, hkk]
      · have hkk : ¬ k = k' := fun e => hk (hp.trans e)
        simp [hp, hk, hkk, ih]
    · by_cases hk : p.1 = k'
      · have h2 : ¬ k' = k := hk ▸ hp
        simp [hp, hk, h2]
      · simp [hp, hk, ih]

theorem alistFind_append_self {κ α : Type} [DecidableEq κ] (l : List (κ × α)) (k : κ) (v : α) :
    alistFind k (l ++ [(k, v)]) = some ((alistFind k l).getD v) := by
  induction l with
  | nil => simp
  | cons p t ih =>
    by_cases hp : p.1 = k
    · simp [hp]
    · simp [hp, ih]

theorem alistFind_ensure {κ α : Type} [DecidableEq κ] (l : List (κ × α)) (k : κ) (d : α) :
    alistFind k (if (alistFind k l).isNone = true then l ++ [(k, d)] else l)
      = some ((alistFind k l).getD d) := by
  cases h : alistFind k l with
  | some v => simp [h]
  | none => simp [h, alistFind_append_self]

theorem alistFind_replace {κ α : Type} [DecidableEq κ] (l : List (κ × α)) (k : κ) (v : α) :
    alistFind k (alistReplace k v l) = if (alistFind k l).isSome then some v else none := by
  induction l with
  | nil => simp
  | cons p t ih =>
    by_cases hp : p.1 = k
    · simp [hp]
    · simp [hp, ih]

theorem if_true_else_eq_or_decide (c : Prop) [Decidable c] (b : Bool) :
    (if c then true else b) = (b || decide c) := by
  by_cases h : c <;> simp [h]

theorem or_decide_le_absorb (x : Bool) (th a b : Nat) (h : a ≤ b) :
    ((x || decide (th ≤ a)) || decide (th ≤ b)) = (x || decide (th ≤ b)) := by
  by_cases h1 : th ≤ a
  · have h2 : th ≤ b := le_trans h1 h
    simp [h1, h2]
  · simp [h1]

theorem uf_or_true (f : UpdateFlags) (h : f.program = true) :
    (⟨f.matrices || f.program, false, f.textures, f.vao⟩ : UpdateFlags)
      = ⟨true, false, f.textures, f.vao⟩ := by
  rw [h, Bool.or_true]

theorem uf_or_prog (f : UpdateFlags) (h : f.program = false) :
    (⟨f.matrices || f.program, false, f.textures, f.vao⟩ : UpdateFlags) = f := by
  cases f; simp_all

/-- After the Update_Program block the program flag is down, the
matrices flag is up whenever either was, and nothing else moved. -/
theorem esuProgramBlock_shape (prog : NzShaderProgram) (st : RState) :
    ∃ ms ts ops, esuProgramBlock prog st
      = ({st with matrices := ms, targetSize := ts,
                  updateFlags := ⟨st.updateFlags.matrices || st.updateFlags.program, false,
                                  st.updateFlags.textures, st.updateFlags.vao⟩}, ops) := by
  by_cases h : st.updateFlags.program = true
  · refine ⟨relocateUniforms st.matrices prog, (0, 0), [GpuOp.resolveUniformLocations], ?_⟩
    unfold esuProgramBlock
    rw [if_pos h, uf_or_true st.updateFlags h]
  · have hf : st.updateFlags.program = false := by
      revert h; cases st.updateFlags.program <;> simp
    refine ⟨st.matrices, st.targetSize, [], ?_⟩
    unfold esuProgramBlock
    rw [if_neg h, uf_or_prog st.updateFlags hf]

/-- After the target-size block the mirrored target size equals the
target dimensions and nothing else moved. -/
theorem esuTargetSizeBlock_shape (prog : NzShaderProgram) (tgt : NzRenderTarget) (st : RState) :
    ∃ ops, esuTargetSizeBlock prog tgt st
      = ({st with targetSize := (tgt.width, tgt.height)}, ops) := by
  by_cases h : st.targetSize = (tgt.width, tgt.height)
  · refine ⟨[], ?_⟩
    unfold esuTargetSizeBlock
    rw [if_neg (not_not_intro h), ← h]
  · exact ⟨(if prog.locInvTargetSize ≠ -1 then [GpuOp.sendVector] else []) ++
      (if prog.locTargetSize ≠ -1 then [GpuOp.sendVector] else []),
      by unfold esuTargetSizeBlock; rw [if_pos h]⟩

/-- After the Update_Textures block the textures flag is down and only
the texture units and the dirty set moved. -/
theorem esuTextures_shape (u : Bool) (st : RState) :
    ∃ tu d ops, esuTextures u st
      = ({st with textureUnits := tu, dirtyTextureUnits := d,
                  updateFlags := {st.updateFlags with textures := false}}, ops) := by
  by_cases h : st.updateFlags.textures = true
  · exact ⟨(st.dirtyTextureUnits.foldl (applyDirtyUnit u) (st.textureUnits, [])).1, [],
      (st.dirtyTextureUnits.foldl (applyDirtyUnit u) (st.textureUnits, [])).2,
      by simp only [esuTextures]; rw [if_pos h]⟩
  · have hf : st.updateFlags.textures = false := by
      revert h; cases st.updateFlags.textures <;> simp
    refine ⟨st.textureUnits, st.dirtyTextureUnits, [], ?_⟩
    simp only [esuTextures]
    rw [if_neg h, uf_eta_textures st.updateFlags hf]

/-- After the Update_Matrices block the matrices flag is down and only
the matrix slots moved. -/
theorem esuMatrices_shape (st : RState) :
    ∃ ms ops, esuMatrices st
      = ({st with matrices := ms,
                  updateFlags := {st.updateFlags with matrices := false}}, ops) := by
  by_cases h : st.updateFlags.matrices = true
  · exact ⟨(allMatrixTypes.foldl sendMatrixStep (st.matrices, [])).1,
      (allMatrixTypes.foldl sendMatrixStep (st.matrices, [])).2,
      by simp only [esuMatrices]; rw [if_pos h]⟩
  · have hf : st.updateFlags.matrices = false := by
      revert h; cases st.updateFlags.matrices <;> simp
    refine ⟨st.matrices, [], ?_⟩
    simp only [esuMatrices]
    rw [if_neg h, uf_eta_matrices st.updateFlags hf]

/-- A successful Update_VAO block under VAO support: the vao flag is
down and only the VAO cache fields moved. -/
theorem esuVao_true_ok (ctx : Nat) (st : RState) (hok : (esuVao true ctx st).1 = true) :
    ∃ vm c h ops, esuVao true ctx st
      = (true, {st with vaos := vm, vaoCounter := c, currentVAO := h,
                        updateFlags := {st.updateFlags with vao := false}}, ops) := by
  by_cases hv : st.updateFlags.vao = true
  · cases hvb : st.vertexBuffer with
    | none =>
      simp only [esuVao, hv, if_true, hvb] at hok
      exact absurd hok (by simp)
    | some vb =>
      exact ⟨(vaoLookup st.vaos ctx
          ⟨st.indexBuffer, vb, vb.decl, if st.instancing then st.instancingDecl else none⟩
          st.vaoCounter).2.1,
        (vaoLookup st.vaos ctx
          ⟨st.indexBuffer, vb, vb.decl, if st.instancing then st.instancingDecl else none⟩
          st.vaoCounter).2.2.1,
        (vaoLookup st.vaos ctx
          ⟨st.indexBuffer, vb, vb.decl, if st.instancing then st.instancingDecl else none⟩
          st.vaoCounter).1,
        (if (vaoLookup st.vaos ctx
            ⟨st.indexBuffer, vb, vb.decl, if st.instancing then st.instancingDecl else none⟩
            st.vaoCounter).2.2.2 then [GpuOp.programAttribs] else []),
        by simp only [esuVao, hv, if_true, hvb]⟩
  · have hf : st.updateFlags.vao = false := by
      revert hv; cases st.updateFlags.vao <;> simp
    refine ⟨st.vaos, st.vaoCounter, st.currentVAO, [], ?_⟩
    simp only [esuVao]
    rw [if_neg hv, uf_eta_vao st.updateFlags hf]

/-- A successful dirty-category dispatch under VAO support leaves the
texture, matrix and vao flags down and the program flag as it was. -/
theorem esuFlagsBlock_ok_shape (cfg : Config) (ctx : Nat) (st : RState)
    (huse : cfg.useVAO = true) (hok : (esuFlagsBlock cfg ctx st).1 = true) :
    ∃ ms tu d vm c h ops, esuFlagsBlock cfg ctx st
      = (true, {st with matrices := ms, textureUnits := tu, dirtyTextureUnits := d,
                        vaos := vm, vaoCounter := c, currentVAO := h,
                        updateFlags := ⟨false, st.updateFlags.program, false, false⟩},
         ops) := by
  by_cases hany : flagsAny st.updateFlags = true
  · simp only [esuFlagsBlock, hany, if_true] at hok ⊢
    obtain ⟨tu, d, ops1, hTex⟩ := esuTextures_shape cfg.useSamplerObjects st
    simp only [hTex] at hok ⊢
    obtain ⟨ms, ops2, hMat⟩ := esuMatrices_shape
      {st with textureUnits := tu, dirtyTextureUnits := d,
               updateFlags := {st.updateFlags with textures := false}}
    simp only [hMat] at hok ⊢
    simp only [huse] at hok ⊢
    obtain ⟨vm, c2, h2, ops3, hVao⟩ := esuVao_true_ok ctx _ hok
    simp only [hVao]
    exact ⟨ms, tu, d, vm, c2, h2, ops1 ++ ops2 ++ ops3, rfl⟩
  · have hflags : st.updateFlags = ⟨false, false, false, false⟩ :=
      (flagsAny_false_iff st.updateFlags).mp (by revert hany; cases flagsAny st.updateFlags <;> simp)
    refine ⟨st.matrices, st.textureUnits, st.dirtyTextureUnits, st.vaos, st.vaoCounter,
      st.currentVAO, [], ?_⟩
    simp only [esuFlagsBlock]
    rw [if_neg hany]
    have h4 : (⟨false, st.updateFlags.program, false, false⟩ : UpdateFlags) = st.updateFlags := by
      rw [hflags]
    rw [h4]

/-- The trailing operations of a successful call are all outside the
reconcile kinds. -/
theorem esuTail_nonreconcile (cfg : Config) (s : RState) :
    (esuTail cfg s).all (fun o => !reconcileOp o) = true := by
  unfold esuTail
  rw [List.all_append, List.all_append, Bool.and_eq_true, Bool.and_eq_true]
  refine ⟨⟨?_, ?_⟩, ?_⟩
  · cases cfg.useVAO <;> simp [reconcileOp]
  · unfold defensiveBinds
    rw [List.all_eq_true]
    intro o ho
    obtain ⟨i, _, hi⟩ := List.mem_filterMap.mp ho
    by_cases hs : ((s.textureUnits.getD i defaultTextureUnit).texture).isSome = true
    · rw [if_pos hs] at hi
      cases hi
      simp [reconcileOp]
    · rw [if_neg hs] at hi
      cases hi
  · simp [reconcileOp]

/-- EnsureStateUpdate on a fully clean state: success, no state change,
and only the unconditional trailing operations. -/
theorem esu_clean_state (cfg : Config) (ctx : Nat) (prog : NzShaderProgram)
    (tgt : NzRenderTarget) (s : RState) (hcc : cfg.currentContext = some ctx)
    (hp : s.program = some prog) (ht : s.target = some tgt)
    (hflags : s.updateFlags = ⟨false, false, false, false⟩)
    (hts : s.targetSize = (tgt.width, tgt.height)) :
    EnsureStateUpdate cfg s
      = (true, s, GpuOp.bindProgram :: GpuOp.bindProgramTextures :: esuTail cfg s) := by
  have e1 : esuProgramBlock prog s = (s, []) := by
    unfold esuProgramBlock
    rw [if_neg (show ¬(s.updateFlags.program = true) by rw [hflags]; simp)]
  have e2 : esuTargetSizeBlock prog tgt s = (s, []) := by
    unfold esuTargetSizeBlock
    rw [if_neg (not_not_intro hts)]
  have e3 : esuFlagsBlock cfg ctx s = (true, s, []) := by
    simp only [esuFlagsBlock]
    rw [if_neg (show ¬(flagsAny s.updateFlags = true) by rw [hflags]; simp [flagsAny])]
  simp only [EnsureStateUpdate, hcc, hp, ht, e1, e2, e3]
  simp

/-- The material comparator is the lexicographic order on
(deferred program, deferred+instancing program, diffuse map, address). -/
theorem matCmp_iff (a b : NzMaterial) :
    BatchedModelMaterialComparator a b = true ↔
      (a.progDeferred < b.progDeferred ∨ (a.progDeferred = b.progDeferred ∧
        (a.progDeferredInstancing < b.progDeferredInstancing ∨
          (a.progDeferredInstancing = b.progDeferredInstancing ∧
            (a.diffuseMap < b.diffuseMap ∨
              (a.diffuseMap = b.diffuseMap ∧ a.addr < b.addr)))))) := by
  unfold BatchedModelMaterialComparator
  split_ifs with h1 h2 h3 <;> simp only [decide_eq_true_eq] <;> omega

/-! ## Claim theorems -/

/-- C1.  The claim fails on the code: the View case of the SetMatrix
invalidation switch clears the World and InvWorld slots (which do not
depend on View) and leaves WorldView and InvWorldView marked current, so
after SetMatrix(View, v) a GetMatrix(WorldView) serves the stale cached
product of the old bases (here the identity left by Initialize) instead
of World * View with the new view, and GetMatrix(WorldViewProj)
recomputes from the stale WorldView. -/
theorem C1_setMatrix_view_invalidation_bug :
    (SetMatrix .View (NzMatrix4f.user 1) (initRState 0)).matrices.worldView.updated = true ∧
    (SetMatrix .View (NzMatrix4f.user 1) (initRState 0)).matrices.invWorldView.updated = true ∧
    (SetMatrix .View (NzMatrix4f.user 1) (initRState 0)).matrices.world.updated = false ∧
    (SetMatrix .View (NzMatrix4f.user 1) (initRState 0)).matrices.invWorld.updated = false ∧
    (GetMatrix .WorldView (SetMatrix .View (NzMatrix4f.user 1) (initRState 0))).1
      = NzMatrix4f.ident ∧
    NzMatrix4f.mulAffine
        (SetMatrix .View (NzMatrix4f.user 1) (initRState 0)).matrices.world.matrix
        (SetMatrix .View (NzMatrix4f.user 1) (initRState 0)).matrices.view.matrix
      = NzMatrix4f.mulAffine NzMatrix4f.ident (NzMatrix4f.user 1) ∧
    (GetMatrix .WorldView (SetMatrix .View (NzMatrix4f.user 1) (initRState 0))).1
      ≠ NzMatrix4f.mulAffine NzMatrix4f.ident (NzMatrix4f.user 1) ∧
    (GetMatrix .WorldViewProj (SetMatrix .View (NzMatrix4f.user 1) (initRState 0))).1
      = NzMatrix4f.mulFull NzMatrix4f.ident NzMatrix4f.ident := by
  decide

/-- C3.  The claim fails on the code: BatchedSkeletalMeshComparator reads
both index buffers from subMesh1, so its first stage always compares
equal and the result is decided by raw identity alone (and the dead else
branch compares buffer2 with itself); on index-buffer storages 1 and 2
with raw addresses 9 and 3 the spec three-stage order says true/false
while the code says false/true.  The static comparator agrees with the
three-stage order here. -/
theorem C3_skeletal_comparator_self_compare :
    BatchedSkeletalMeshComparator ⟨some 1, 7, 9⟩ ⟨some 2, 7, 3⟩ = false ∧
    skeletalComparatorSpec ⟨some 1, 7, 9⟩ ⟨some 2, 7, 3⟩ = true ∧
    BatchedSkeletalMeshComparator ⟨some 2, 7, 3⟩ ⟨some 1, 7, 9⟩ = true ∧
    skeletalComparatorSpec ⟨some 2, 7, 3⟩ ⟨some 1, 7, 9⟩ = false ∧
    BatchedStaticMeshComparator ⟨some 1, 7, 9⟩ ⟨some 2, 7, 3⟩ = true := by
  decide

/-- C7.  The material comparator is a strict total order on distinct
materials: irreflexive, transitive, and for materials at distinct
addresses exactly one direction holds. -/
theorem C7_material_comparator_strict_order (a b c : NzMaterial) :
    BatchedModelMaterialComparator a a = false ∧
    (BatchedModelMaterialComparator a b = true → BatchedModelMaterialComparator b c = true →
      BatchedModelMaterialComparator a c = true) ∧
    (a.addr ≠ b.addr →
      BatchedModelMaterialComparator a b ≠ BatchedModelMaterialComparator b a) := by
  refine ⟨?_, ?_, ?_⟩
  · simp [BatchedModelMaterialComparator]
  · intro h1 h2
    rw [matCmp_iff] at h1 h2 ⊢
    omega
  · intro hne heq
    cases h1 : BatchedModelMaterialComparator a b with
    | false =>
      cases h2 : BatchedModelMaterialComparator b a with
      | false =>
        have na : ¬ (BatchedModelMaterialComparator a b = true) := by simp [h1]
        have nb : ¬ (BatchedModelMaterialComparator b a = true) := by simp [h2]
        rw [matCmp_iff] at na nb
        omega
      | true =>
        rw [h1, h2] at heq
        exact absurd heq (by simp)
    | true =>
      cases h2 : BatchedModelMaterialComparator b a with
      | false =>
        rw [h1, h2] at heq
        exact absurd heq (by simp)
      | true =>
        have pa := (matCmp_iff a b).mp h1
        have pb := (matCmp_iff b a).mp h2
        omega

/-- Witness for C7 at two concrete materials with distinct addresses. -/
theorem C7_material_comparator_strict_order_witness :
    (⟨1, 2, 3, false, 4⟩ : NzMaterial).addr ≠ (⟨1, 2, 3, false, 5⟩ : NzMaterial).addr ∧
    BatchedModelMaterialComparator ⟨1, 2, 3, false, 4⟩ ⟨1, 2, 3, false, 5⟩
      ≠ BatchedModelMaterialComparator ⟨1, 2, 3, false, 5⟩ ⟨1, 2, 3, false, 4⟩ :=
  ⟨by decide,
   (C7_material_comparator_strict_order ⟨1, 2, 3, false, 4⟩ ⟨1, 2, 3, false, 5⟩
     ⟨1, 2, 3, false, 5⟩).2.2 (by decide)⟩

/-- C9.  SetVertexBuffer(nullptr) is a complete no-op on the cached
state, while SetIndexBuffer(nullptr), when an index buffer is currently
bound, records the null buffer and marks the vertex-array category
dirty. -/
theorem C9_null_vertex_buffer_noop (st : RState) :
    SetVertexBuffer none st = st ∧
    (st.indexBuffer ≠ none →
      SetIndexBuffer none st
        = {st with indexBuffer := none, updateFlags := {st.updateFlags with vao := true}}) := by
  constructor
  · rfl
  · intro h
    unfold SetIndexBuffer
    simp [h]

/-- Witness for C9 at a state with a bound index buffer. -/
theorem C9_null_vertex_buffer_noop_witness :
    ({initRState 0 with indexBuffer := some ⟨3, true⟩} : RState).indexBuffer ≠ none ∧
    SetIndexBuffer none {initRState 0 with indexBuffer := some ⟨3, true⟩}
      = {{initRState 0 with indexBuffer := some ⟨3, true⟩} with
          indexBuffer := none,
          updateFlags := {({initRState 0 with indexBuffer := some ⟨3, true⟩} : RState).updateFlags with vao := true}} :=
  ⟨by simp, (C9_null_vertex_buffer_noop {initRState 0 with indexBuffer := some ⟨3, true⟩}).2 (by simp)⟩

/-- SetTexture is a no-op when the unit already holds the texture. -/
theorem setTexture_noop (st : RState) (u : Nat) (t : NzTexture)
    (h : u < st.textureUnits.length)
    (heq : (st.textureUnits.getD u defaultTextureUnit).texture = some t) :
    SetTexture u (some t) st = st := by
  have hle : ¬ st.textureUnits.length ≤ u := Nat.not_le.mpr h
  simp only [SetTexture]
  rw [if_neg hle, if_neg (not_not_intro heq)]

/-- C10.  SetTexture on an in-range unit that already holds the texture
changes nothing, and two consecutive identical SetTexture calls equal
one. -/
theorem C10_setTexture_idempotent (st : RState) (u : Nat) (t : NzTexture)
    (h : u < st.textureUnits.length) :
    ((st.textureUnits.getD u defaultTextureUnit).texture = some t →
      SetTexture u (some t) st = st) ∧
    SetTexture u (some t) (SetTexture u (some t) st) = SetTexture u (some t) st := by
  refine ⟨setTexture_noop st u t h, ?_⟩
  by_cases heq : (st.textureUnits.getD u defaultTextureUnit).texture = some t
  · simp only [setTexture_noop st u t h heq]
  · have hle : ¬ st.textureUnits.length ≤ u := Nat.not_le.mpr h
    have hlen : (SetTexture u (some t) st).textureUnits.length = st.textureUnits.length := by
      simp only [SetTexture]
      rw [if_neg hle, if_pos heq]
      simp
    have htex : ((SetTexture u (some t) st).textureUnits.getD u defaultTextureUnit).texture
        = some t := by
      simp only [SetTexture]
      rw [if_neg hle, if_pos heq]
      rw [List.getD_eq_getElem?_getD, List.getElem?_set_self h]
      simp only [Option.getD_some]
      split <;> rfl
    exact setTexture_noop _ u t (by rw [hlen]; exact h) htex

/-- Witness for C10 at unit 0 of a one-unit state. -/
theorem C10_setTexture_idempotent_witness :
    0 < (initRState 1).textureUnits.length ∧
    (((initRState 1).textureUnits.getD 0 defaultTextureUnit).texture = some ⟨1, false⟩ →
      SetTexture 0 (some ⟨1, false⟩) (initRState 1) = initRState 1) ∧
    SetTexture 0 (some ⟨1, false⟩) (SetTexture 0 (some ⟨1, false⟩) (initRState 1))
      = SetTexture 0 (some ⟨1, false⟩) (initRState 1) :=
  ⟨by decide, C10_setTexture_idempotent (initRState 1) 0 ⟨1, false⟩ (by decide)⟩

/-- C2, amended part: the three precondition failures (no context, no
program, no target) happen before anything is mutated and return with
the state exactly as it was. -/
theorem C2_early_failure_preserves_state (cfg : Config) (st : RState)
    (h : cfg.currentContext = none ∨ st.program = none ∨ st.target = none) :
    EnsureStateUpdate cfg st = (false, st, []) := by
  unfold EnsureStateUpdate
  rcases h with h | h | h
  · rw [h]
  · rw [h]
    cases cfg.currentContext <;> rfl
  · rw [h]
    cases cfg.currentContext with
    | none => rfl
    | some ctx => cases st.program <;> rfl

/-- Witness for C2 at a state with no active context. -/
theorem C2_early_failure_preserves_state_witness :
    ((⟨none, true, true⟩ : Config).currentContext = none ∨ (initRState 0).program = none ∨
      (initRState 0).target = none) ∧
    EnsureStateUpdate ⟨none, true, true⟩ (initRState 0) = (false, initRState 0, []) :=
  ⟨Or.inl rfl, C2_early_failure_preserves_state ⟨none, true, true⟩ (initRState 0) (Or.inl rfl)⟩

/-- C2, counterexample: with Update_Textures and Update_VAO raised but no
vertex buffer bound, EnsureStateUpdate fails after having flushed the
texture category, so the dirty-flag state it leaves behind differs from
the one it started with (textures flag dropped, dirty-unit set emptied,
vao flag still set). -/
theorem C2_partial_clear_on_missing_vertex_buffer :
    (EnsureStateUpdate ⟨some 0, true, true⟩ exC2st).1 = false ∧
    exC2st.updateFlags.textures = true ∧
    exC2st.dirtyTextureUnits = [0] ∧
    (EnsureStateUpdate ⟨some 0, true, true⟩ exC2st).2.1.updateFlags.textures = false ∧
    (EnsureStateUpdate ⟨some 0, true, true⟩ exC2st).2.1.dirtyTextureUnits = [] ∧
    (EnsureStateUpdate ⟨some 0, true, true⟩ exC2st).2.1.updateFlags.vao = true := by
  decide

/-- C8.  Clear(false) empties exactly the three light lists (batch and
sprite tables, and the listener registrations, are untouched) and
forwards false; Clear(true) additionally empties both tables and removes
every registered batch-table key from the listener registrations, and
forwards true. -/
theorem C8_clear_shallow_vs_full (st : QState) :
    (Clear false st = {st with directionalLights := [], pointLights := [], spotLights := [],
                               fwdClear := some false} ∧
     (Clear true st).directionalLights = [] ∧
     (Clear true st).pointLights = [] ∧
     (Clear true st).spotLights = [] ∧
     (Clear true st).opaqueModels = [] ∧
     (Clear true st).sprites = [] ∧
     (Clear true st).fwdClear = some true) ∧
    (∀ r, registeredKey st r = true → r ∉ (Clear true st).listeners) := by
  constructor
  · exact ⟨by simp [Clear], by simp [Clear], by simp [Clear], by simp [Clear],
      by simp [Clear], by simp [Clear], by simp [Clear]⟩
  · intro r hr hmem
    simp only [Clear, if_pos] at hmem
    have := (List.mem_filter.mp hmem).2
    rw [hr] at this
    exact absurd this (by simp)

/-- Witness for C8: after Clear(true), a previously registered material
key no longer appears among the listener registrations. -/
theorem C8_clear_shallow_vs_full_witness :
    registeredKey exQSt (QRes.mat 1) = true ∧ QRes.mat 1 ∉ (Clear true exQSt).listeners :=
  ⟨by decide, (C8_clear_shallow_vs_full exQSt).2 (QRes.mat 1) (by decide)⟩

/-- Purging by a key predicate removes exactly the entries whose key
satisfies it, in every context. -/
theorem mem_vaoEntries_purge (pred : VaoKey → Bool) (m : VaoMap) (c : Nat) (k : VaoKey)
    (h : Nat) :
    (c, k, h) ∈ vaoEntries (m.map (fun p => (p.1, p.2.filter (fun e => !pred e.1)))) ↔
      ((c, k, h) ∈ vaoEntries m ∧ pred k = false) := by
  simp only [vaoEntries, List.mem_flatMap, List.mem_map]
  constructor
  · rintro ⟨p, ⟨q, hq, rfl⟩, e, he, heq⟩
    dsimp only at he
    simp only [List.mem_filter] at he
    simp only [Prod.mk.injEq] at heq
    obtain ⟨h1, h2, h3⟩ := heq
    subst h1; subst h2; subst h3
    exact ⟨⟨q, hq, e, he.1, rfl⟩, by simpa using he.2⟩
  · rintro ⟨⟨p, hp, e, he, heq⟩, hpred⟩
    simp only [Prod.mk.injEq] at heq
    obtain ⟨h1, h2, h3⟩ := heq
    subst h1; subst h2; subst h3
    refine ⟨(p.1, p.2.filter (fun e => !pred e.1)), ⟨p, hp, rfl⟩, e, ?_, rfl⟩
    dsimp only
    simp only [List.mem_filter]
    exact ⟨he, by simpa using hpred⟩

/-- A second lookup with the same context and key returns the cached
handle and changes neither the map nor the name counter. -/
theorem vaoLookup_idem (m : VaoMap) (ctx : Nat) (k : VaoKey) (c : Nat) :
    vaoLookup (vaoLookup m ctx k c).2.1 ctx k (vaoLookup m ctx k c).2.2.1
      = ((vaoLookup m ctx k c).1, (vaoLookup m ctx k c).2.1,
         (vaoLookup m ctx k c).2.2.1, false) := by
  unfold vaoLookup
  cases hctx : alistFind ctx m with
  | some sub =>
    cases hk : alistFind k sub with
    | some handle => simp [hctx, hk]
    | none =>
      have hsome : (alistFind ctx m).isSome := by rw [hctx]; rfl
      have h2 : alistFind ctx (alistReplace ctx (sub ++ [(k, c)]) m) = some (sub ++ [(k, c)]) :=
        alistFind_replace_self _ hsome
      have h3 : alistFind k (sub ++ [(k, c)]) = some c := by
        rw [alistFind_append_none _ hk]; simp
      simp [hctx, hk, h2, h3]
  | none =>
    have h1 : alistFind ctx (m ++ [(ctx, [])]) = some [] := by
      rw [alistFind_append_none _ hctx]; simp
    have hsome : (alistFind ctx (m ++ [(ctx, [])])).isSome := by rw [h1]; rfl
    have h2 : alistFind ctx (alistReplace ctx [(k, c)] (m ++ [(ctx, [])]))
        = some [(k, c)] := alistFind_replace_self [(k, c)] hsome
    have h3 : alistFind k ([(k, c)] : List (VaoKey × Nat)) = some c := by simp
    simp [hctx, h1, h2, h3]

/-- C6.  For a fixed context, looking the same key up twice with no
destruction in between returns the same cached handle (and leaves the
cache untouched); destroying an index buffer, a vertex buffer or a
vertex declaration removes, across all contexts, exactly the entries
whose key holds that resource in any of its positions. -/
theorem C6_vao_cache_lookup_and_purge (m : VaoMap) (ctx : Nat) (k : VaoKey) (counter : Nat)
    (c : Nat) (k' : VaoKey) (h : Nat) (ib : NzIndexBuffer) (vb : NzVertexBuffer) (d : Nat) :
    (vaoLookup (vaoLookup m ctx k counter).2.1 ctx k (vaoLookup m ctx k counter).2.2.1
       = ((vaoLookup m ctx k counter).1, (vaoLookup m ctx k counter).2.1,
          (vaoLookup m ctx k counter).2.2.1, false)) ∧
    ((c, k', h) ∈ vaoEntries (OnIndexBufferReleased ib m) ↔
       ((c, k', h) ∈ vaoEntries m ∧ k'.ib ≠ some ib)) ∧
    ((c, k', h) ∈ vaoEntries (OnVertexBufferReleased vb m) ↔
       ((c, k', h) ∈ vaoEntries m ∧ k'.vb ≠ vb)) ∧
    ((c, k', h) ∈ vaoEntries (OnVertexDeclarationReleased d m) ↔
       ((c, k', h) ∈ vaoEntries m ∧ ¬(k'.decl = d ∨ k'.instDecl = some d))) := by
  refine ⟨vaoLookup_idem m ctx k counter, ?_, ?_, ?_⟩
  · have base := mem_vaoEntries_purge (fun key => decide (key.ib = some ib)) m c k' h
    simpa [OnIndexBufferReleased, decide_eq_false_iff_not] using base
  · have base := mem_vaoEntries_purge (fun key => decide (key.vb = vb)) m c k' h
    simpa [OnVertexBufferReleased, decide_eq_false_iff_not] using base
  · have base := mem_vaoEntries_purge
      (fun key => decide (key.decl = d) || decide (key.instDecl = some d)) m c k' h
    simpa [OnVertexDeclarationReleased, decide_eq_false_iff_not, Bool.or_eq_false_iff,
      not_or] using base

/-- One static opaque AddSubMesh call: the (material, mesh) entry exists
afterwards, its transform list grows by the submitted transform, and its
instancing flag is the old flag OR-ed with the threshold test on the new
instance count. -/
theorem addSubMesh_static_step (th : Nat) (material : NzMaterial) (subMesh : QSubMesh)
    (tm : Nat) (st : QState) (hblend : material.blend = false)
    (hanim : subMesh.anim = .staticMesh) :
    (alistFind material.addr (AddSubMesh th material subMesh tm st).opaqueModels).isSome
      = true ∧
    instListOf (AddSubMesh th material subMesh tm st) material.addr subMesh.meshAddr
      = instListOf st material.addr subMesh.meshAddr ++ [tm] ∧
    entryInstOf (AddSubMesh th material subMesh tm st) material.addr
      = (entryInstOf st material.addr
          || decide (th ≤ (instListOf st material.addr subMesh.meshAddr).length + 1)) := by
  unfold AddSubMesh
  simp only [hanim, hblend]
  rw [if_neg Bool.false_ne_true]
  simp only [instListOf, entryInstOf,
    apply_ite BatchEntry.statics, apply_ite BatchEntry.enableInst, apply_ite BatchEntry.used,
    ite_self, alistFind_ensure, alistFind_replace, Option.getD_some, Option.isSome_some,
    if_true]
  refine ⟨trivial, trivial, ?_⟩
  rw [if_true_else_eq_or_decide]

/-- Submitting a nonempty run of static opaque transforms: the transform
list grows by the whole run in order, and the instancing flag is the old
flag OR-ed with the threshold test on the final instance count. -/
theorem addSubMesh_static_run (th : Nat) (material : NzMaterial) (subMesh : QSubMesh)
    (hblend : material.blend = false) (hanim : subMesh.anim = .staticMesh) :
    ∀ (p : List Nat) (st : QState), p ≠ [] →
      (alistFind material.addr
          (AddSubMeshRun th material subMesh p st).opaqueModels).isSome = true ∧
      instListOf (AddSubMeshRun th material subMesh p st) material.addr subMesh.meshAddr
        = instListOf st material.addr subMesh.meshAddr ++ p ∧
      entryInstOf (AddSubMeshRun th material subMesh p st) material.addr
        = (entryInstOf st material.addr
            || decide (th ≤ (instListOf st material.addr subMesh.meshAddr).length
                 + p.length)) := by
  intro p
  induction p with
  | nil => intro st h; exact absurd rfl h
  | cons a q ih =>
    intro st _
    have hrun : AddSubMeshRun th material subMesh (a :: q) st
        = AddSubMeshRun th material subMesh q (AddSubMesh th material subMesh a st) := rfl
    obtain ⟨s1, s2, s3⟩ := addSubMesh_static_step th material subMesh a st hblend hanim
    by_cases hq : q = []
    · subst hq
      rw [hrun]
      have hnil : AddSubMeshRun th material subMesh []
          (AddSubMesh th material subMesh a st) = AddSubMesh th material subMesh a st := rfl
      rw [hnil]
      refine ⟨s1, s2, ?_⟩
      rw [s3]
      simp
    · obtain ⟨i1, i2, i3⟩ := ih (AddSubMesh th material subMesh a st) hq
      rw [hrun]
      refine ⟨i1, ?_, ?_⟩
      · rw [i2, s2, List.append_assoc, List.singleton_append]
      · rw [i3, s2, s3, List.length_append]
        have he : (instListOf st material.addr subMesh.meshAddr).length + [a].length + q.length
            = (instListOf st material.addr subMesh.meshAddr).length + (a :: q).length := by
          simp
          omega
        rw [he]
        exact or_decide_le_absorb _ th _ _ (by simp)

/-- C4, amended: when vertex-array objects are supported, a successful
EnsureStateUpdate leaves the dirty bitmask empty, and an immediately
repeated call does no reconciliation work at all: it succeeds, leaves the
state untouched, and its trace holds only the unconditional program bind,
program-texture bind, VAO bind, cached defensive texture re-validation
and render-state application, none of which is a dirty-driven texture
rebind, matrix resend, vertex-array reprogramming, target-size resend or
uniform-location re-resolution. -/
theorem C4_idempotent_with_vao (cfg : Config) (st : RState)
    (huse : cfg.useVAO = true) (hok : (EnsureStateUpdate cfg st).1 = true) :
    flagsAny (EnsureStateUpdate cfg st).2.1.updateFlags = false ∧
    EnsureStateUpdate cfg (EnsureStateUpdate cfg st).2.1
      = (true, (EnsureStateUpdate cfg st).2.1,
         GpuOp.bindProgram :: GpuOp.bindProgramTextures ::
           esuTail cfg (EnsureStateUpdate cfg st).2.1) ∧
    ((EnsureStateUpdate cfg (EnsureStateUpdate cfg st).2.1).2.2).all
      (fun o => !reconcileOp o) = true := by
  cases hcc : cfg.currentContext with
  | none => simp [EnsureStateUpdate, hcc] at hok
  | some ctx =>
  cases hp : st.program with
  | none => simp [EnsureStateUpdate, hcc, hp] at hok
  | some prog =>
  cases ht : st.target with
  | none => simp [EnsureStateUpdate, hcc, hp, ht] at hok
  | some tgt =>
  obtain ⟨ms1, ts1, opsA, hA⟩ := esuProgramBlock_shape prog st
  set sA : RState := {st with matrices := ms1, targetSize := ts1, updateFlags := ⟨st.updateFlags.matrices || st.updateFlags.program, false, st.updateFlags.textures, st.updateFlags.vao⟩} with hsA
  obtain ⟨opsB, hB⟩ := esuTargetSizeBlock_shape prog tgt sA
  set sB : RState := {sA with targetSize := (tgt.width, tgt.height)} with hsB
  have hok2 : (esuFlagsBlock cfg ctx sB).1 = true := by
    simp only [EnsureStateUpdate, hcc, hp, ht, hA, hB] at hok
    by_cases hc : (esuFlagsBlock cfg ctx sB).1 = true
    · exact hc
    · rw [if_neg hc] at hok
      simp at hok
  obtain ⟨ms, tu, d, vm, c2, h2, opsC, hC⟩ := esuFlagsBlock_ok_shape cfg ctx sB huse hok2
  set sC : RState := {sB with matrices := ms, textureUnits := tu, dirtyTextureUnits := d, vaos := vm, vaoCounter := c2, currentVAO := h2, updateFlags := ⟨false, sB.updateFlags.program, false, false⟩} with hsC
  have hfirst : EnsureStateUpdate cfg st
      = (true, sC, GpuOp.bindProgram :: opsA ++ GpuOp.bindProgramTextures :: opsB
          ++ opsC ++ esuTail cfg sC) := by
    simp only [EnsureStateUpdate, hcc, hp, ht, hA, hB, hC]
    simp
  have hCp : sC.program = some prog := hp
  have hCt : sC.target = some tgt := ht
  have hCf : sC.updateFlags = ⟨false, false, false, false⟩ := rfl
  have hCts : sC.targetSize = (tgt.width, tgt.height) := rfl
  have hsecond := esu_clean_state cfg ctx prog tgt sC hcc hCp hCt hCf hCts
  rw [hfirst]
  refine ⟨rfl, hsecond, ?_⟩
  rw [hsecond]
  simp only [List.all_cons, Bool.and_eq_true]
  exact ⟨by simp [reconcileOp], by simp [reconcileOp], esuTail_nonreconcile cfg sC⟩

/-- C4, counterexample to the claim as stated: without VAO support the
vertex-array category stays dirty by design even after a successful
call, and the second call programs the vertex attributes again. -/
theorem C4_no_vao_counterexample :
    (EnsureStateUpdate ⟨some 0, true, false⟩ exVaoOnlySt).1 = true ∧
    (EnsureStateUpdate ⟨some 0, true, false⟩ exVaoOnlySt).2.1.updateFlags.vao = true ∧
    ((EnsureStateUpdate ⟨some 0, true, false⟩
        (EnsureStateUpdate ⟨some 0, true, false⟩ exVaoOnlySt).2.1).2.2).contains
      GpuOp.programAttribs = true := by
  decide

/-- Witness for C4 at a drawable state under VAO support. -/
theorem C4_idempotent_with_vao_witness :
    ((⟨some 0, true, true⟩ : Config).useVAO = true ∧
     (EnsureStateUpdate ⟨some 0, true, true⟩ exDrawableSt).1 = true) ∧
    (flagsAny (EnsureStateUpdate ⟨some 0, true, true⟩ exDrawableSt).2.1.updateFlags = false ∧
     EnsureStateUpdate ⟨some 0, true, true⟩
         (EnsureStateUpdate ⟨some 0, true, true⟩ exDrawableSt).2.1
       = (true, (EnsureStateUpdate ⟨some 0, true, true⟩ exDrawableSt).2.1,
          GpuOp.bindProgram :: GpuOp.bindProgramTextures ::
            esuTail ⟨some 0, true, true⟩
              (EnsureStateUpdate ⟨some 0, true, true⟩ exDrawableSt).2.1) ∧
     ((EnsureStateUpdate ⟨some 0, true, true⟩
         (EnsureStateUpdate ⟨some 0, true, true⟩ exDrawableSt).2.1).2.2).all
       (fun o => !reconcileOp o) = true) :=
  ⟨⟨rfl, by decide⟩, C4_idempotent_with_vao ⟨some 0, true, true⟩ exDrawableSt rfl (by decide)⟩

/-- C5.  Starting from a state with no batch entry for the material,
a run of static opaque submissions for one (material, mesh) pair keeps
the entry's transform list equal to the submitted prefix in submission
order, and its instancing flag equal to (threshold reached), i.e. false
strictly below the threshold, true from the threshold on, monotonically
for the rest of the frame. -/
theorem C5_instancing_threshold (th : Nat) (material : NzMaterial) (subMesh : QSubMesh)
    (tms : List Nat) (st : QState)
    (hblend : material.blend = false) (hanim : subMesh.anim = .staticMesh)
    (hfresh : alistFind material.addr st.opaqueModels = none) :
    ∀ k, 1 ≤ k → k ≤ tms.length →
      (alistFind material.addr
          (AddSubMeshRun th material subMesh (tms.take k) st).opaqueModels).isSome = true ∧
      instListOf (AddSubMeshRun th material subMesh (tms.take k) st) material.addr
          subMesh.meshAddr = tms.take k ∧
      entryInstOf (AddSubMeshRun th material subMesh (tms.take k) st) material.addr
        = decide (th ≤ k) := by
  intro k hk1 hk2
  have hbase_list : instListOf st material.addr subMesh.meshAddr = [] := by
    simp [instListOf, hfresh, defaultBatchEntry]
  have hbase_inst : entryInstOf st material.addr = false := by
    simp [entryInstOf, hfresh, defaultBatchEntry]
  have hlen : (tms.take k).length = k := by
    rw [List.length_take]
    exact Nat.min_eq_left hk2
  have hne : tms.take k ≠ [] := by
    intro h0
    rw [h0] at hlen
    simp at hlen
    omega
  obtain ⟨r1, r2, r3⟩ := addSubMesh_static_run th material subMesh hblend hanim (tms.take k) st hne
  refine ⟨r1, ?_, ?_⟩
  · rw [r2, hbase_list, List.nil_append]
  · rw [r3, hbase_inst, hbase_list, hlen]
    simp

/-- Witness for C5: the spec scenario, five submissions sharing one
material and mesh with threshold 3; after all five the flag is set and
all five transforms are present in order. -/
theorem C5_instancing_threshold_witness :
    ((⟨0, 0, 0, false, 1⟩ : NzMaterial).blend = false ∧
     (⟨AnimationType.staticMesh, 2⟩ : QSubMesh).anim = .staticMesh ∧
     alistFind (⟨0, 0, 0, false, 1⟩ : NzMaterial).addr
       (⟨[], [], [], [], [], [], [], none⟩ : QState).opaqueModels = none ∧
     1 ≤ 5 ∧ 5 ≤ [10, 20, 30, 40, 50].length) ∧
    ((alistFind (⟨0, 0, 0, false, 1⟩ : NzMaterial).addr
        (AddSubMeshRun 3 ⟨0, 0, 0, false, 1⟩ ⟨AnimationType.staticMesh, 2⟩
          ([10, 20, 30, 40, 50].take 5) ⟨[], [], [], [], [], [], [], none⟩).opaqueModels).isSome
        = true ∧
     instListOf (AddSubMeshRun 3 ⟨0, 0, 0, false, 1⟩ ⟨AnimationType.staticMesh, 2⟩
          ([10, 20, 30, 40, 50].take 5) ⟨[], [], [], [], [], [], [], none⟩)
        (⟨0, 0, 0, false, 1⟩ : NzMaterial).addr
        (⟨AnimationType.staticMesh, 2⟩ : QSubMesh).meshAddr = [10, 20, 30, 40, 50].take 5 ∧
     entryInstOf (AddSubMeshRun 3 ⟨0, 0, 0, false, 1⟩ ⟨AnimationType.staticMesh, 2⟩
          ([10, 20, 30, 40, 50].take 5) ⟨[], [], [], [], [], [], [], none⟩)
        (⟨0, 0, 0, false, 1⟩ : NzMaterial).addr = decide (3 ≤ 5)) :=
  ⟨⟨rfl, rfl, rfl, by decide, by decide⟩,
   C5_instancing_threshold 3 ⟨0, 0, 0, false, 1⟩ ⟨AnimationType.staticMesh, 2⟩
     [10, 20, 30, 40, 50] ⟨[], [], [], [], [], [], [], none⟩ rfl rfl rfl 5
     (by decide) (by decide)⟩

end NazaraCore
